import Mathlib

/-!
Verification of the persistence and mutation layer of the EduAI record-keeping
service (`src/main.py`).  The Python handlers are shallowly embedded as pure
Lean functions: the mutable JSON document becomes the `Document` structure,
timestamps (`datetime.now().isoformat()`) become abstract `Nat` clock values
supplied by the caller, and freshly generated `uuid.uuid4()` strings become
explicit `String` arguments.  The on-disk file `data.json` is modelled by the
`Stored` type, distinguishing a missing file, an empty file, contents that fail
JSON parsing, and contents that parse as JSON (which may or may not have the
`Document` shape).
-/

namespace EduAI

/-- The `analytics` sub-object of the persisted document
(`src/main.py` lines 60-65). -/
structure Analytics where
  page_views : Nat
  waitlist_count : Nat
  enrollment_count : Nat
  last_updated : Nat
  deriving Repr, DecidableEq

/-- Pydantic model `WaitlistEntry` (`src/main.py` lines 34-40).  The `type`
field has default value `"waitlist"` but is an ordinary settable field. -/
structure WaitlistEntry where
  id : String
  email : String
  name : Option String := none
  type : String := "waitlist"
  created_at : Nat
  status : String := "pending"
  deriving Repr, DecidableEq

/-- Pydantic model `Enrollment` (`src/main.py` lines 42-51). -/
structure Enrollment where
  id : String
  name : String
  email : String
  track : String
  experience : String
  newsletter : Bool := true
  scholarship_info : Bool := true
  created_at : Nat
  status : String := "pending"
  deriving Repr, DecidableEq

/-- The root persisted object: both collections plus the analytics counters. -/
structure Document where
  waitlist : List WaitlistEntry
  enrollments : List Enrollment
  analytics : Analytics
  deriving Repr, DecidableEq

/-- The fresh empty document synthesized by `init_db`
(`src/main.py` lines 57-66 and 83-92): both collections empty, all counters
zero, `last_updated` set to the current time. -/
def emptyDocument (now : Nat) : Document :=
  { waitlist := []
    enrollments := []
    analytics :=
      { page_views := 0
        waitlist_count := 0
        enrollment_count := 0
        last_updated := now } }

/-- Outcome of `join_waitlist`: either the 400 "Email already registered"
response or the success response carrying the new entry's id. -/
inductive JoinResult where
  | duplicateEmail
  | success (id : String)
  deriving Repr, DecidableEq

/-- In-memory mutation performed by the `POST /api/waitlist` handler
`join_waitlist` (`src/main.py` lines 160-191) between `read_db` and
`write_db`.  The handler receives `type` as a form field defaulting to
`"waitlist"`, filters the waitlist for entries whose `email` equals the given
email exactly (`entry["email"] == email`), rejects when any match exists, and
otherwise appends a new entry, recomputes `waitlist_count` from the collection
length and refreshes `last_updated`. -/
def join_waitlist (doc : Document) (email : String) (name : Option String)
    (newId : String) (now : Nat) (ty : String := "waitlist") :
    Document × JoinResult :=
  let existing := doc.waitlist.filter (fun entry => entry.email == email)
  if existing.isEmpty = false then
    (doc, JoinResult.duplicateEmail)
  else
    let entry : WaitlistEntry :=
      { id := newId, email := email, name := name, type := ty,
        created_at := now, status := "pending" }
    let waitlist := doc.waitlist ++ [entry]
    ({ waitlist := waitlist
       enrollments := doc.enrollments
       analytics :=
         { doc.analytics with
           waitlist_count := waitlist.length
           last_updated := now } },
     JoinResult.success newId)

/-- In-memory mutation performed by the `POST /api/enroll` handler
`submit_enrollment` (`src/main.py` lines 196-224): no uniqueness check, always
appends the new enrollment, recomputes `enrollment_count`, refreshes
`last_updated`, and returns the new id.  The two boolean form fields default
to `true` (`newsletter: bool = Form(True)`, `scholarship_info: bool =
Form(True)`). -/
def submit_enrollment (doc : Document) (name email track experience : String)
    (newId : String) (now : Nat)
    (newsletter : Bool := true) (scholarship_info : Bool := true) :
    Document × String :=
  let enrollment : Enrollment :=
    { id := newId, name := name, email := email, track := track,
      experience := experience, newsletter := newsletter,
      scholarship_info := scholarship_info, created_at := now,
      status := "pending" }
  let enrollments := doc.enrollments ++ [enrollment]
  ({ doc with
     enrollments := enrollments
     analytics :=
       { doc.analytics with
         enrollment_count := enrollments.length
         last_updated := now } },
   newId)

/-- In-memory mutation performed by the `DELETE /api/waitlist/{entry_id}`
handler `delete_waitlist_entry` (`src/main.py` lines 269-279): keeps every
entry whose id differs from the given id, recomputes `waitlist_count`,
refreshes `last_updated`, and always returns the success message. -/
def delete_waitlist_entry (doc : Document) (entry_id : String) (now : Nat) :
    Document × String :=
  let waitlist := doc.waitlist.filter (fun entry => entry.id != entry_id)
  ({ doc with
     waitlist := waitlist
     analytics :=
       { doc.analytics with
         waitlist_count := waitlist.length
         last_updated := now } },
   "Waitlist entry deleted successfully")

/-- In-memory mutation performed by the `DELETE /api/enrollments/{enrollment_id}`
handler `delete_enrollment` (`src/main.py` lines 281-291). -/
def delete_enrollment (doc : Document) (enrollment_id : String) (now : Nat) :
    Document × String :=
  let enrollments :=
    doc.enrollments.filter (fun enrollment => enrollment.id != enrollment_id)
  ({ doc with
     enrollments := enrollments
     analytics :=
       { doc.analytics with
         enrollment_count := enrollments.length
         last_updated := now } },
   "Enrollment deleted successfully")

/-- In-memory mutation performed by the `POST /api/simulate-data` handler
`simulate_data` (`src/main.py` lines 293-326): appends one fixture
`WaitlistEntry` and one fixture `Enrollment`, recomputes both counters and
refreshes `last_updated`. -/
def simulate_data (doc : Document) (id1 id2 : String) (now : Nat) :
    Document × String :=
  let sample_waitlist : WaitlistEntry :=
    { id := id1, email := "student@school.edu", name := some "Sample Student",
      type := "waitlist", created_at := now, status := "pending" }
  let sample_enrollment : Enrollment :=
    { id := id2, name := "Sample Teacher", email := "teacher@school.edu",
      track := "Mathematics", experience := "Expert", newsletter := true,
      scholarship_info := true, created_at := now, status := "pending" }
  let waitlist := doc.waitlist ++ [sample_waitlist]
  let enrollments := doc.enrollments ++ [sample_enrollment]
  ({ waitlist := waitlist
     enrollments := enrollments
     analytics :=
       { doc.analytics with
         waitlist_count := waitlist.length
         enrollment_count := enrollments.length
         last_updated := now } },
   "Sample data added successfully")

/-- In-memory mutation performed by the `GET /` handler `read_index`
(`src/main.py` lines 126-130) when recording a page view: increments
`page_views` and refreshes `last_updated`. -/
def read_index (doc : Document) (now : Nat) : Document :=
  { doc with
    analytics :=
      { doc.analytics with
        page_views := doc.analytics.page_views + 1
        last_updated := now } }

/-- A value returned by `json.load`: either a value of the `Document` shape or
some other JSON value (for example `[]` or `{}`), which `json.load` accepts
but which is not a valid document.  The `Nat` index just distinguishes
non-document values from one another. -/
inductive JsonVal where
  | doc (d : Document)
  | nonDoc (v : Nat)
  deriving Repr, DecidableEq

/-- State of the backing file `data.json`: absent, present but empty, present
with contents that raise `json.JSONDecodeError`, or present with contents that
parse as the given JSON value. -/
inductive Stored where
  | missing
  | empty
  | invalidJson
  | validJson (v : JsonVal)
  deriving Repr, DecidableEq

/-- `init_db` (`src/main.py` lines 54-107), returning what the function
returns together with the resulting file state.  A missing file is populated
with the fresh empty document; an empty file raises `ValueError` and garbage
raises `json.JSONDecodeError`, both caught by the handler that recreates and
persists the fresh empty document; contents that parse as JSON are returned
verbatim with no shape validation and no write. -/
def init_db (store : Stored) (now : Nat) : JsonVal × Stored :=
  match store with
  | Stored.missing =>
      (JsonVal.doc (emptyDocument now),
       Stored.validJson (JsonVal.doc (emptyDocument now)))
  | Stored.empty =>
      (JsonVal.doc (emptyDocument now),
       Stored.validJson (JsonVal.doc (emptyDocument now)))
  | Stored.invalidJson =>
      (JsonVal.doc (emptyDocument now),
       Stored.validJson (JsonVal.doc (emptyDocument now)))
  | Stored.validJson v => (v, Stored.validJson v)

/-- `read_db` (`src/main.py` lines 109-110) simply delegates to `init_db`. -/
def read_db (store : Stored) (now : Nat) : JsonVal × Stored :=
  init_db store now

/-- `write_db` (`src/main.py` lines 112-117): attempts to overwrite the
backing file with the serialized document.  The `writeOk` flag models whether
the underlying file write succeeds; on failure the Python code catches the
exception, prints a log line and returns normally, so the caller receives no
error signal either way — the function's result carries no failure
information. -/
def write_db (store : Stored) (d : Document) (writeOk : Bool) : Stored :=
  if writeOk then Stored.validJson (JsonVal.doc d) else store

/-- Response shape of `GET /api/stats` (`src/main.py` lines 229-249). -/
structure StatsResult where
  analytics : Analytics
  waitlist_count : Nat
  enrollment_count : Nat
  deriving Repr, DecidableEq

/-- `get_stats` (`src/main.py` lines 229-249): reads the document and returns
its analytics together with both collection lengths; it never writes.  When
the stored JSON value is not a document the field accesses raise and the
handler's `except` branch returns zeroed counters with a fresh timestamp,
still without writing. -/
def get_stats (store : Stored) (now : Nat) : StatsResult × Stored :=
  match read_db store now with
  | (JsonVal.doc d, store2) =>
      ({ analytics := d.analytics
         waitlist_count := d.waitlist.length
         enrollment_count := d.enrollments.length }, store2)
  | (JsonVal.nonDoc _, store2) =>
      ({ analytics :=
           { page_views := 0, waitlist_count := 0, enrollment_count := 0,
             last_updated := now }
         waitlist_count := 0
         enrollment_count := 0 }, store2)

/-- HTTP-level outcome of the `POST /api/waitlist` handler: success with the
new id, the 400 duplicate-email response, or the 500 response raised when the
stored JSON value lacks the document shape. -/
inductive RouteResult where
  | ok (id : String)
  | badRequest
  | serverError
  deriving Repr, DecidableEq

/-- Full `POST /api/waitlist` handler over the backing store
(`src/main.py` lines 160-194): `read_db`, the in-memory mutation, then
`write_db` on the success path only.  The duplicate path returns the 400
response before any mutation or write. -/
def join_waitlist_route (store : Stored) (email : String) (name : Option String)
    (newId : String) (now : Nat) (writeOk : Bool) : Stored × RouteResult :=
  match read_db store now with
  | (JsonVal.nonDoc _, store2) => (store2, RouteResult.serverError)
  | (JsonVal.doc d, store2) =>
      match join_waitlist d email name newId now with
      | (_, JoinResult.duplicateEmail) => (store2, RouteResult.badRequest)
      | (d2, JoinResult.success i) => (write_db store2 d2 writeOk, RouteResult.ok i)

/-- One in-memory mutating request against the document (the page-view bump of
`read_index` included, and `reset` for the `GET /reset-db` handler that
deletes the file and reinitializes it empty). -/
inductive Event where
  | insertWaitlist (email : String) (name : Option String) (id : String)
  | insertEnrollment (name email track experience : String)
      (newsletter scholarship_info : Bool) (id : String)
  | deleteWaitlist (id : String)
  | deleteEnrollment (id : String)
  | seed (id1 id2 : String)
  | pageView
  | reset
  deriving Repr, DecidableEq

/-- Effect of one event on the document, at clock value `now`. -/
def step (doc : Document) (e : Event) (now : Nat) : Document :=
  match e with
  | Event.insertWaitlist email name id => (join_waitlist doc email name id now).1
  | Event.insertEnrollment name email track experience nl si id =>
      (submit_enrollment doc name email track experience id now nl si).1
  | Event.deleteWaitlist id => (delete_waitlist_entry doc id now).1
  | Event.deleteEnrollment id => (delete_enrollment doc id now).1
  | Event.seed id1 id2 => (simulate_data doc id1 id2 now).1
  | Event.pageView => read_index doc now
  | Event.reset => emptyDocument now

/-- Run a sequence of timed events. -/
def run (doc : Document) : List (Event × Nat) → Document
  | [] => doc
  | (e, now) :: rest => run (step doc e now) rest

/-- Run a sequence of `InsertWaitlist` requests `(email, name, newId, now)`,
each using the default `type` form value. -/
def runInserts (doc : Document) :
    List (String × Option String × String × Nat) → Document
  | [] => doc
  | (email, name, newId, now) :: rest =>
      runInserts (join_waitlist doc email name newId now).1 rest

/-- The clock values of a timed event sequence are non-decreasing and start no
earlier than `t`. -/
def validClock : Nat → List (Event × Nat) → Prop
  | _, [] => True
  | t, (_, now) :: rest => t ≤ now ∧ validClock now rest

/-- Counter-consistency invariant of the document. -/
def countersOk (doc : Document) : Prop :=
  doc.analytics.waitlist_count = doc.waitlist.length ∧
  doc.analytics.enrollment_count = doc.enrollments.length

/-- No two waitlist entries share an email. -/
def emailsNodup (doc : Document) : Prop :=
  (doc.waitlist.map WaitlistEntry.email).Nodup

/-- A concrete backing store holding one waitlist entry for "a@x.com": a
test fixture for the duplicate-rejection scenario. -/
def sampleStore : Stored :=
  Stored.validJson (JsonVal.doc
    { waitlist :=
        [{ id := "w1", email := "a@x.com", name := some "A",
           created_at := 0 }]
      enrollments := []
      analytics :=
        { page_views := 0, waitlist_count := 1,
          enrollment_count := 0, last_updated := 0 } })

/-! ## Helper lemmas -/

theorem filter_isEmpty_false_iff {α : Type} (p : α → Bool) (l : List α) :
    ((l.filter p).isEmpty = false) ↔ ∃ a ∈ l, p a = true := by
  induction l with
  | nil => simp
  | cons x xs ih =>
      by_cases h : p x = true <;> simp [List.filter_cons, h, ih]

theorem join_waitlist_dup_iff (doc : Document) (e : String) (n : Option String)
    (i : String) (t : Nat) (ty : String) :
    (join_waitlist doc e n i t ty).2 = JoinResult.duplicateEmail ↔
      ∃ entry ∈ doc.waitlist, entry.email = e := by
  by_cases hc :
      ((doc.waitlist.filter (fun entry => entry.email == e)).isEmpty = false)
  · simp only [join_waitlist, if_pos hc]
    rw [filter_isEmpty_false_iff] at hc
    simpa using hc
  · simp only [join_waitlist, if_neg hc]
    rw [filter_isEmpty_false_iff] at hc
    push_neg at hc
    constructor
    · intro h
      exact absurd h (by simp)
    · rintro ⟨entry, hmem, hem⟩
      exact absurd hem (by simpa using hc entry hmem)

theorem join_waitlist_dup_fst (doc : Document) (e : String) (n : Option String)
    (i : String) (t : Nat) (ty : String)
    (h : (join_waitlist doc e n i t ty).2 = JoinResult.duplicateEmail) :
    (join_waitlist doc e n i t ty).1 = doc := by
  by_cases hc :
      ((doc.waitlist.filter (fun entry => entry.email == e)).isEmpty = false)
  · simp only [join_waitlist, if_pos hc]
  · simp only [join_waitlist, if_neg hc] at h
    exact absurd h (by simp)

theorem join_waitlist_preserves_emailsNodup (doc : Document) (e : String)
    (n : Option String) (i : String) (t : Nat) (ty : String)
    (h : emailsNodup doc) : emailsNodup (join_waitlist doc e n i t ty).1 := by
  by_cases hc :
      ((doc.waitlist.filter (fun entry => entry.email == e)).isEmpty = false)
  · simpa only [join_waitlist, if_pos hc] using h
  · simp only [join_waitlist, if_neg hc]
    rw [filter_isEmpty_false_iff] at hc
    push_neg at hc
    unfold emailsNodup at h ⊢
    simp only [List.map_append, List.map_cons, List.map_nil]
    rw [List.nodup_append]
    refine ⟨h, List.nodup_singleton _, ?_⟩
    intro a ha hb
    simp only [List.mem_singleton] at hb
    subst hb
    simp only [List.mem_map] at ha
    obtain ⟨entry, hmem, hem⟩ := ha
    exact absurd hem (by simpa using hc entry hmem)

theorem runInserts_preserves_emailsNodup (reqs : List (String × Option String × String × Nat)) :
    ∀ doc : Document, emailsNodup doc → emailsNodup (runInserts doc reqs) := by
  induction reqs with
  | nil => intro doc h; simpa [runInserts] using h
  | cons r rest ih =>
      intro doc h
      obtain ⟨e, n, i, t⟩ := r
      exact ih _ (join_waitlist_preserves_emailsNodup doc e n i t "waitlist" h)

theorem step_preserves_countersOk (doc : Document) (e : Event) (now : Nat)
    (h : countersOk doc) : countersOk (step doc e now) := by
  obtain ⟨h1, h2⟩ := h
  cases e with
  | insertWaitlist email name id =>
      by_cases hc :
          ((doc.waitlist.filter (fun entry => entry.email == email)).isEmpty = false)
      · simpa only [step, join_waitlist, if_pos hc] using ⟨h1, h2⟩
      · simp only [step, join_waitlist, if_neg hc]
        exact ⟨rfl, h2⟩
  | insertEnrollment name email track experience nl si id =>
      exact ⟨h1, rfl⟩
  | deleteWaitlist id => exact ⟨rfl, h2⟩
  | deleteEnrollment id => exact ⟨h1, rfl⟩
  | seed id1 id2 => exact ⟨rfl, rfl⟩
  | pageView => exact ⟨h1, h2⟩
  | reset => exact ⟨rfl, rfl⟩

theorem run_preserves_countersOk (evs : List (Event × Nat)) :
    ∀ doc : Document, countersOk doc → countersOk (run doc evs) := by
  induction evs with
  | nil => intro doc h; simpa [run] using h
  | cons p rest ih =>
      intro doc h
      obtain ⟨e, now⟩ := p
      exact ih _ (step_preserves_countersOk doc e now h)

theorem step_refreshes_or_fixes (doc : Document) (e : Event) (now : Nat) :
    (step doc e now).analytics.last_updated = now ∨ step doc e now = doc := by
  cases e with
  | insertWaitlist email name id =>
      by_cases hc :
          ((doc.waitlist.filter (fun entry => entry.email == email)).isEmpty = false)
      · right
        simp only [step, join_waitlist, if_pos hc]
      · left
        simp only [step, join_waitlist, if_neg hc]
  | insertEnrollment name email track experience nl si id => left; rfl
  | deleteWaitlist id => left; rfl
  | deleteEnrollment id => left; rfl
  | seed id1 id2 => left; rfl
  | pageView => left; rfl
  | reset => left; rfl

theorem validClock_anti {t t2 : Nat} (evs : List (Event × Nat)) (h : t ≤ t2)
    (hv : validClock t2 evs) : validClock t evs := by
  cases evs with
  | nil => trivial
  | cons p rest => exact ⟨h.trans hv.1, hv.2⟩

theorem run_last_updated_mono (evs : List (Event × Nat)) :
    ∀ doc : Document, validClock doc.analytics.last_updated evs →
      doc.analytics.last_updated ≤ (run doc evs).analytics.last_updated := by
  induction evs with
  | nil => intro doc _; exact Nat.le_refl _
  | cons p rest ih =>
      intro doc hv
      obtain ⟨e, now⟩ := p
      obtain ⟨h1, h2⟩ := hv
      rcases step_refreshes_or_fixes doc e now with hs | hs
      · have hrest : validClock (step doc e now).analytics.last_updated rest := by
          rw [hs]; exact h2
        have hstep : doc.analytics.last_updated ≤ (step doc e now).analytics.last_updated := by
          rw [hs]; exact h1
        exact le_trans hstep (ih (step doc e now) hrest)
      · have hrest : validClock (step doc e now).analytics.last_updated rest := by
          rw [hs]; exact validClock_anti rest h1 h2
        have := ih (step doc e now) hrest
        simpa [run, hs] using this

theorem join_waitlist_fst_waitlist (doc : Document) (e : String)
    (n : Option String) (i : String) (t : Nat) (ty : String) :
    (join_waitlist doc e n i t ty).1.waitlist = doc.waitlist ∨
    (join_waitlist doc e n i t ty).1.waitlist =
      doc.waitlist ++
        [{ id := i, email := e, name := n, type := ty,
           created_at := t, status := "pending" }] := by
  by_cases hc :
      ((doc.waitlist.filter (fun entry => entry.email == e)).isEmpty = false)
  · left
    simp only [join_waitlist, if_pos hc]
  · right
    simp only [join_waitlist, if_neg hc]

/-! ## Claim theorems -/

/-- Claim C1: `InsertWaitlist` fails with `DuplicateEmail` iff some existing
waitlist entry has an exactly equal (case-sensitive) email; a duplicate
attempt leaves the document, and in particular the waitlist collection,
unchanged; and after any finite sequence of `InsertWaitlist` calls starting
from a document whose waitlist emails are pairwise distinct (such as the empty
document), no two surviving entries share an email. -/
theorem C1_insertWaitlist_duplicate_unique
    (doc : Document) (e : String) (n : Option String) (i : String) (t : Nat)
    (reqs : List (String × Option String × String × Nat))
    (hnodup : emailsNodup doc) :
    ((join_waitlist doc e n i t).2 = JoinResult.duplicateEmail ↔
      ∃ entry ∈ doc.waitlist, entry.email = e) ∧
    ((join_waitlist doc e n i t).2 = JoinResult.duplicateEmail →
      (join_waitlist doc e n i t).1 = doc) ∧
    emailsNodup (runInserts doc reqs) :=
  ⟨join_waitlist_dup_iff doc e n i t "waitlist",
   join_waitlist_dup_fst doc e n i t "waitlist",
   runInserts_preserves_emailsNodup reqs doc hnodup⟩

/-- Concrete instance of the C1 theorem: starting from the empty document,
with a prior insert of "a@x.com" followed by a duplicate attempt in the
request sequence. -/
theorem C1_insertWaitlist_duplicate_unique_witness :
    emailsNodup (emptyDocument 0) ∧
    (((join_waitlist (emptyDocument 0) "a@x.com" (some "B") "w2" 2).2 =
        JoinResult.duplicateEmail ↔
      ∃ entry ∈ (emptyDocument 0).waitlist, entry.email = "a@x.com") ∧
    ((join_waitlist (emptyDocument 0) "a@x.com" (some "B") "w2" 2).2 =
        JoinResult.duplicateEmail →
      (join_waitlist (emptyDocument 0) "a@x.com" (some "B") "w2" 2).1 =
        emptyDocument 0) ∧
    emailsNodup (runInserts (emptyDocument 0)
      [("a@x.com", some "A", "w1", 1), ("a@x.com", some "B", "w2", 2)])) :=
  ⟨List.Pairwise.nil,
   C1_insertWaitlist_duplicate_unique (emptyDocument 0) "a@x.com" (some "B")
     "w2" 2 [("a@x.com", some "A", "w1", 1), ("a@x.com", some "B", "w2", 2)]
     List.Pairwise.nil⟩

/-- Claim C2: starting from the empty document, after any finite sequence of
completed operations (waitlist/enrollment inserts, deletes from either
collection, sample-data seeding, page views, resets),
`analytics.waitlist_count` equals the length of `waitlist` and
`analytics.enrollment_count` equals the length of `enrollments`. -/
theorem C2_counters_consistent (t0 : Nat) (evs : List (Event × Nat)) :
    countersOk (run (emptyDocument t0) evs) :=
  run_preserves_countersOk evs (emptyDocument t0) ⟨rfl, rfl⟩

/-- Claim C3 counterexample: backing contents that parse as JSON but do not
have the document shape (for example the file text `[]`, modelled by
`JsonVal.nonDoc 0`) are returned verbatim by `init_db` — not replaced by a
structurally valid empty document — and no repair write occurs, because
`json.load` succeeds and the code performs no shape validation. -/
theorem C3_load_skips_shape_validation :
    init_db (Stored.validJson (JsonVal.nonDoc 0)) 5 =
      (JsonVal.nonDoc 0, Stored.validJson (JsonVal.nonDoc 0)) ∧
    JsonVal.nonDoc 0 ≠ JsonVal.doc (emptyDocument 5) :=
  ⟨rfl, by decide⟩

/-- Claim C3 (amended): for a backing file that is missing, empty, or fails to
parse as JSON, `init_db` (and hence `read_db`) never raises: it returns the
fresh empty document, persists it, and a subsequent load returns the same
empty document with the store unchanged — no further repair side effects. -/
theorem C3_init_db_repairs (s : Stored) (now now2 : Nat)
    (h : s = Stored.missing ∨ s = Stored.empty ∨ s = Stored.invalidJson) :
    (init_db s now).1 = JsonVal.doc (emptyDocument now) ∧
    (init_db s now).2 = Stored.validJson (JsonVal.doc (emptyDocument now)) ∧
    init_db (init_db s now).2 now2 =
      (JsonVal.doc (emptyDocument now),
       Stored.validJson (JsonVal.doc (emptyDocument now))) := by
  rcases h with h | h | h <;> subst h <;> exact ⟨rfl, rfl, rfl⟩

/-- Concrete instance of the C3 amended theorem, for a missing backing file
repaired at time 3 and re-read at time 7. -/
theorem C3_init_db_repairs_witness :
    (Stored.missing = Stored.missing ∨ Stored.missing = Stored.empty ∨
      Stored.missing = Stored.invalidJson) ∧
    ((init_db Stored.missing 3).1 = JsonVal.doc (emptyDocument 3) ∧
     (init_db Stored.missing 3).2 =
       Stored.validJson (JsonVal.doc (emptyDocument 3)) ∧
     init_db (init_db Stored.missing 3).2 7 =
       (JsonVal.doc (emptyDocument 3),
        Stored.validJson (JsonVal.doc (emptyDocument 3)))) :=
  ⟨Or.inl rfl, C3_init_db_repairs Stored.missing 3 7 (Or.inl rfl)⟩

/-- Claim C4 (code bug): when the file write fails (`writeOk = false`) after a
successful in-memory mutation, `write_db` swallows the exception, so the
waitlist route still answers with the success result even though the backing
store was left untouched — the persistence failure is never surfaced to the
caller. -/
theorem C4_write_failure_swallowed :
    join_waitlist_route (Stored.validJson (JsonVal.doc (emptyDocument 0)))
        "a@x.com" none "w1" 1 false =
      (Stored.validJson (JsonVal.doc (emptyDocument 0)),
       RouteResult.ok "w1") := by
  decide

/-- Claim C5: for each collection, the delete handler removes every entry
whose id equals the given id, returns the success message even when zero
entries match, and is idempotent — a second identical delete returns success
again and leaves the collection contents exactly as after the first. -/
theorem C5_delete_by_id (doc : Document) (i : String) (t1 t2 : Nat) :
    (∀ entry ∈ (delete_waitlist_entry doc i t1).1.waitlist, entry.id ≠ i) ∧
    ((delete_waitlist_entry doc i t1).2 =
      "Waitlist entry deleted successfully") ∧
    ((delete_waitlist_entry (delete_waitlist_entry doc i t1).1 i t2).1.waitlist =
      (delete_waitlist_entry doc i t1).1.waitlist) ∧
    ((delete_waitlist_entry (delete_waitlist_entry doc i t1).1 i t2).2 =
      "Waitlist entry deleted successfully") ∧
    (∀ en ∈ (delete_enrollment doc i t1).1.enrollments, en.id ≠ i) ∧
    ((delete_enrollment doc i t1).2 = "Enrollment deleted successfully") ∧
    ((delete_enrollment (delete_enrollment doc i t1).1 i t2).1.enrollments =
      (delete_enrollment doc i t1).1.enrollments) ∧
    ((delete_enrollment (delete_enrollment doc i t1).1 i t2).2 =
      "Enrollment deleted successfully") := by
  refine ⟨?_, rfl, ?_, rfl, ?_, rfl, ?_, rfl⟩
  · intro entry hmem
    simp only [delete_waitlist_entry, List.mem_filter, bne_iff_ne] at hmem
    exact hmem.2
  · simp [delete_waitlist_entry, List.filter_filter]
  · intro en hmem
    simp only [delete_enrollment, List.mem_filter, bne_iff_ne] at hmem
    exact hmem.2
  · simp [delete_enrollment, List.filter_filter]

/-- Claim C6: under a non-decreasing clock, `analytics.last_updated` is
monotonically non-decreasing across any sequence of operations; moreover every
single operation either refreshes `last_updated` to the current time (all
completed mutations and the page-view event do) or leaves the document
entirely unchanged (the duplicate-email rejection). -/
theorem C6_last_updated_monotone (doc : Document) (evs : List (Event × Nat))
    (hclock : validClock doc.analytics.last_updated evs) :
    doc.analytics.last_updated ≤ (run doc evs).analytics.last_updated ∧
    ∀ (d : Document) (e : Event) (now : Nat),
      (step d e now).analytics.last_updated = now ∨ step d e now = d :=
  ⟨run_last_updated_mono evs doc hclock, step_refreshes_or_fixes⟩

/-- Concrete instance of the C6 theorem: a page view at time 1 followed by a
delete at time 2, starting from the empty document created at time 0. -/
theorem C6_last_updated_monotone_witness :
    validClock (emptyDocument 0).analytics.last_updated
      [(Event.pageView, 1), (Event.deleteWaitlist "x", 2)] ∧
    ((emptyDocument 0).analytics.last_updated ≤
      (run (emptyDocument 0)
        [(Event.pageView, 1),
         (Event.deleteWaitlist "x", 2)]).analytics.last_updated ∧
    ∀ (d : Document) (e : Event) (now : Nat),
      (step d e now).analytics.last_updated = now ∨ step d e now = d) :=
  ⟨⟨Nat.zero_le 1, Nat.le_succ 1, trivial⟩,
   C6_last_updated_monotone (emptyDocument 0)
     [(Event.pageView, 1), (Event.deleteWaitlist "x", 2)]
     ⟨Nat.zero_le 1, Nat.le_succ 1, trivial⟩⟩

/-- Claim C7 counterexample: the `type` tag of a stored waitlist entry is a
caller-suppliable form field with default `"waitlist"`, not a constant of the
record — a request posting `type="enrollment"` stores an entry whose tag
differs from `"waitlist"`. -/
theorem C7_type_not_fixed :
    ((join_waitlist (emptyDocument 0) "a@x.com" none "w1" 1
        "enrollment").1.waitlist.map (fun entry => entry.type)) =
      ["enrollment"] ∧
    "enrollment" ≠ "waitlist" :=
  ⟨rfl, by decide⟩

/-- Claim C7 (amended): the tag defaults to `"waitlist"`: every entry added by
`join_waitlist` with the default `type` form value, and the seeded fixture
entry of `simulate_data`, carries `type = "waitlist"`; pre-existing entries
are untouched. -/
theorem C7_type_default_waitlist (doc : Document) (e : String)
    (n : Option String) (i : String) (t : Nat) (id1 id2 : String) :
    (∀ entry ∈ (join_waitlist doc e n i t).1.waitlist,
        entry ∈ doc.waitlist ∨ entry.type = "waitlist") ∧
    (∀ entry ∈ (simulate_data doc id1 id2 t).1.waitlist,
        entry ∈ doc.waitlist ∨ entry.type = "waitlist") := by
  constructor
  · intro entry hmem
    rcases join_waitlist_fst_waitlist doc e n i t "waitlist" with hw | hw
    · rw [hw] at hmem
      exact Or.inl hmem
    · rw [hw, List.mem_append] at hmem
      rcases hmem with hmem | hmem
      · exact Or.inl hmem
      · right
        simp only [List.mem_singleton] at hmem
        rw [hmem]
  · intro entry hmem
    have hw : (simulate_data doc id1 id2 t).1.waitlist =
        doc.waitlist ++
          [{ id := id1, email := "student@school.edu",
             name := some "Sample Student", type := "waitlist",
             created_at := t, status := "pending" }] := rfl
    rw [hw, List.mem_append] at hmem
    rcases hmem with hmem | hmem
    · exact Or.inl hmem
    · right
      simp only [List.mem_singleton] at hmem
      rw [hmem]

/-- Claim C8: on a store holding a valid document, `get_stats` returns the
analytics object together with both counts recomputed from the collection
lengths of a fresh read, and leaves the store — and hence `page_views` —
completely unchanged: it is read-only and never records a view event. -/
theorem C8_get_stats_readonly (d : Document) (now : Nat) :
    get_stats (Stored.validJson (JsonVal.doc d)) now =
      ({ analytics := d.analytics
         waitlist_count := d.waitlist.length
         enrollment_count := d.enrollments.length },
       Stored.validJson (JsonVal.doc d)) := rfl

/-- Claim C9: a `submit_enrollment` call omitting the two boolean form fields
(the concrete `("Sam", "s@x.com", "Math", "Beginner")` scenario) stores an
enrollment with `newsletter = true` and `scholarship_info = true`; and for all
well-formed inputs the operation performs no uniqueness check and succeeds,
always appending exactly the new entry and returning its id. -/
theorem C9_enrollment_defaults (doc : Document) (i : String) (t : Nat)
    (n e tr ex : String) (nl si : Bool) (i2 : String) (t2 : Nat) :
    ((submit_enrollment doc "Sam" "s@x.com" "Math" "Beginner" i t).1.enrollments =
      doc.enrollments ++
        [({ id := i, name := "Sam", email := "s@x.com",
            track := "Math", experience := "Beginner", newsletter := true,
            scholarship_info := true, created_at := t,
            status := "pending" } : Enrollment)]) ∧
    ((submit_enrollment doc "Sam" "s@x.com" "Math" "Beginner" i t).2 = i) ∧
    ((submit_enrollment doc n e tr ex i2 t2 nl si).1.enrollments =
      doc.enrollments ++
        [({ id := i2, name := n, email := e, track := tr,
            experience := ex, newsletter := nl, scholarship_info := si,
            created_at := t2, status := "pending" } : Enrollment)]) ∧
    ((submit_enrollment doc n e tr ex i2 t2 nl si).2 = i2) :=
  ⟨rfl, rfl, rfl, rfl⟩

/-- Claim C10: when the waitlist route rejects a duplicate email it does so
before any mutation or write: the backing store — and with it the analytics
counters, `page_views`, `last_updated`, and the enrollments collection — is
left exactly as it was. -/
theorem C10_duplicate_rejection_atomic (store : Stored) (e : String)
    (n : Option String) (i : String) (t : Nat) (w : Bool)
    (hdup : (join_waitlist_route store e n i t w).2 = RouteResult.badRequest) :
    (join_waitlist_route store e n i t w).1 = store := by
  cases store with
  | missing =>
      exact absurd hdup (by simp [join_waitlist_route, read_db, init_db,
        join_waitlist, emptyDocument])
  | empty =>
      exact absurd hdup (by simp [join_waitlist_route, read_db, init_db,
        join_waitlist, emptyDocument])
  | invalidJson =>
      exact absurd hdup (by simp [join_waitlist_route, read_db, init_db,
        join_waitlist, emptyDocument])
  | validJson v =>
      cases v with
      | nonDoc k =>
          exact absurd hdup (by simp [join_waitlist_route, read_db, init_db])
      | doc d =>
          by_cases hc :
              ((d.waitlist.filter (fun entry => entry.email == e)).isEmpty = false)
          · simp [join_waitlist_route, read_db, init_db, join_waitlist, hc]
          · exact absurd hdup (by simp [join_waitlist_route, read_db, init_db,
              join_waitlist, hc])

/-- Concrete instance of the C10 theorem: a store holding one waitlist entry
for "a@x.com"; a second insert of "a@x.com" is rejected and the store is
unchanged. -/
theorem C10_duplicate_rejection_atomic_witness :
    ((join_waitlist_route sampleStore "a@x.com" (some "B") "w2" 1 true).2 =
      RouteResult.badRequest) ∧
    ((join_waitlist_route sampleStore "a@x.com" (some "B") "w2" 1 true).1 =
      sampleStore) :=
  ⟨by decide,
   C10_duplicate_rejection_atomic sampleStore "a@x.com" (some "B") "w2" 1 true
     (by decide)⟩

end EduAI
